import Mathlib

/-!
# Verification of the HGSmart Pet Feeder integration core

Shallow embedding of `custom_components/hgsmart` (schedule codec, API
client retry/refresh logic, sync coordinator) with proofs of the spec's
testable properties.
-/

namespace HGSmart

/-! ## Python primitives

Small models of the Python built-ins the embedded code uses: string
truthiness, slicing, indexing, `int()` conversion and `f"{n:02d}"`
formatting. -/

/-- Python truthiness of a string: the empty string is falsy. -/
def pyTruthyStr (s : String) : Bool := s ≠ ""

/-- Python truthiness of an optional string (`None` and `""` are falsy). -/
def pyTruthyOptStr : Option String → Bool
  | none => false
  | some s => pyTruthyStr s

/-- Python slice `s[a:b]` on a string: clamps at the ends, never raises. -/
def pySlice (s : String) (a b : Nat) : String :=
  String.mk ((s.data.drop a).take (b - a))

/-- Python exceptions that the embedded code can raise. `other` stands for
any exception class other than the ones the code catches. -/
inductive PyError
  | valueError
  | indexError
  | other
  deriving Repr, DecidableEq

/-- Python indexing `s[i]` on a string: raises `IndexError` when out of range. -/
def pyGetChar (s : String) (i : Nat) : Except PyError Char :=
  match s.data.get? i with
  | some c => .ok c
  | none => .error .indexError

/-- ASCII decimal digit test. -/
def isAsciiDigit (c : Char) : Bool := '0' ≤ c && c ≤ '9'

/-- ASCII whitespace test (the characters Python's `int()` strips). -/
def isPyWs (c : Char) : Bool :=
  c = ' ' || c = '\t' || c = '\n' || c = '\x0d' || c = '\x0b' || c = '\x0c'

/-- Numeric value of a run of ASCII digits. -/
def digitsVal (l : List Char) : Nat :=
  l.foldl (fun a c => 10 * a + (c.toNat - '0'.toNat)) 0

/-- Models Python's built-in `int()` on a string, restricted to ASCII:
optional surrounding whitespace, an optional sign, then a nonempty run of
decimal digits; anything else raises `ValueError` (`none` here).
(Underscore separators and non-ASCII digits are not modelled; no input in
this development uses them.) -/
def pyInt? (s : String) : Option Int :=
  let l := ((s.data.dropWhile isPyWs).reverse.dropWhile isPyWs).reverse
  match l with
  | '+' :: rest =>
      if rest ≠ [] ∧ rest.all isAsciiDigit then some (digitsVal rest) else none
  | '-' :: rest =>
      if rest ≠ [] ∧ rest.all isAsciiDigit then some (-(digitsVal rest : Int)) else none
  | rest =>
      if rest ≠ [] ∧ rest.all isAsciiDigit then some (digitsVal rest) else none

/-- Python `int()` in the exception monad. -/
def pyIntE (s : String) : Except PyError Int :=
  match pyInt? s with
  | some n => .ok n
  | none => .error .valueError

/-- Python `f"{n:02d}"`: decimal rendering left-padded with `'0'` to width 2.
Padding can only occur for a single-digit nonnegative value, so the
sign/padding interaction of wider formats does not arise. -/
def pyFmt02 (n : Int) : String :=
  let s := toString n
  if s.length < 2 then "0" ++ s else s

/-! ## Schedule codec (`helpers.py`) -/

/-- Model of `helpers.ScheduleSlotData`: one decoded feeding-schedule slot. -/
structure ScheduleSlotData where
  enabled : Bool
  hour : Int
  minute : Int
  portions : Int
  slot : Int
  deriving Repr, DecidableEq

/-- Body of `helpers.parse_plan_value`'s `try` block: field extraction and
range checks, raising `ValueError`/`IndexError` exactly where Python would. -/
def parsePlanBody (plan_value : String) : Except PyError (Option ScheduleSlotData) := do
  let c0 ← pyGetChar plan_value 0
  let status ← pyIntE (String.mk [c0])
  let hour ← pyIntE (pySlice plan_value 1 3)
  let minute ← pyIntE (pySlice plan_value 3 5)
  let c6 ← pyGetChar plan_value 6
  let portions ← pyIntE (String.mk [c6])
  let c7 ← pyGetChar plan_value 7
  let slot ← pyIntE (String.mk [c7])
  if ¬ (0 ≤ hour ∧ hour ≤ 23 ∧ 0 ≤ minute ∧ minute ≤ 59) then
    return none
  else if status = 0 then
    return none
  else if status = 3 then
    return none
  else if portions = 0 then
    return none
  else
    return some {
      enabled := decide (status = 1)
      hour := hour
      minute := minute
      portions := if portions > 0 then portions else 1
      slot := slot
    }

/-- Model of `helpers.parse_plan_value` with the exception flow explicit: the guard
returns `none` for falsy/"0"/short input, the `try` block runs the body, and
the `except (ValueError, IndexError)` clause turns exactly those two
exception classes into `none`; any other exception would propagate. -/
def parse_plan_valueE (plan_value : String) : Except PyError (Option ScheduleSlotData) :=
  if ¬ pyTruthyStr plan_value ∨ plan_value = "0" ∨ plan_value.length < 8 then
    .ok none
  else
    match parsePlanBody plan_value with
    | .ok r => .ok r
    | .error .valueError => .ok none
    | .error .indexError => .ok none
    | .error .other => .error .other

/-- Model of `helpers.parse_plan_value` as its callers see it (no exception escapes). -/
def parse_plan_value (plan_value : String) : Option ScheduleSlotData :=
  match parse_plan_valueE plan_value with
  | .ok r => r
  | .error _ => none

/-- Model of `helpers.build_plan_value`:
`f"{status}{hour:02d}{minute:02d}0{portions}{slot}"` with
`status = 1 if enabled else 0`. -/
def build_plan_value (hour minute portions slot : Int) (enabled : Bool := true) : String :=
  let status : Int := if enabled then 1 else 0
  toString status ++ pyFmt02 hour ++ pyFmt02 minute ++ "0"
    ++ toString portions ++ toString slot

/-! ## API client (`api.py`)

The HTTP layer is embedded by scripting the cloud's responses: each call
consumes the next scripted response, and each `refresh_access_token` call
consumes the next scripted outcome.  JSON dictionaries are modelled as
association lists with string values. -/

/-- A JSON-object payload (association-list model of a Python dict). -/
abbrev JsonDict := List (String × String)

/-- Python `dict.get(key, default)` on the association-list model. -/
def dictGet (m : JsonDict) (key dflt : String) : String :=
  (m.lookup key).getD dflt

/-- One device record from the device-list response (`device["deviceId"]`,
`device.get("type", "")`; a missing `type` key is modelled as `""`). -/
structure Device where
  deviceId : String
  type : String
  deriving Repr, DecidableEq

/-- Outcome of one HTTP round-trip as `get_devices` observes it: the JSON
envelope's application `code` (200 / 401 / other) or a raised transport
exception. -/
inductive ListResp
  | ok (devices : List Device)
  | authExpired
  | appError
  | exn
  deriving Repr, DecidableEq

/-- Model of `api.get_devices`, with the server's successive responses to the
device-list request and the outcome of each `refresh_access_token` call
scripted.  Returns `(requests made, refreshes attempted, result)`; `none`
means the script was too short for the run (never the case in the theorems
below).  Faithful to the source's control flow: code 200 returns the data;
code 401 refreshes and, if the refresh succeeded, recursively re-invokes
`get_devices` (there is no retry bound in the source), else returns `[]`;
any other code and any exception return `[]`. -/
def get_devices : List ListResp → List Bool → Option (Nat × Nat × List Device)
  | [], _ => none
  | .ok ds :: _, _ => some (1, 0, ds)
  | .authExpired :: rest, refreshes =>
      match refreshes with
      | [] => none
      | b :: bs =>
          if b then
            match get_devices rest bs with
            | some (q, f, res) => some (q + 1, f + 1, res)
            | none => none
          else
            some (1, 1, [])
  | .appError :: _, _ => some (1, 0, [])
  | .exn :: _, _ => some (1, 0, [])

/-- Outcome of one HTTP round-trip for the per-device GET endpoints: a 200
envelope whose `data` field may be absent, a 401, another error code, or a
transport exception. -/
inductive FetchResp
  | ok (data : Option JsonDict)
  | authExpired
  | appError
  | exn
  deriving Repr, DecidableEq

/-- Model of `api.get_feeder_stats`: `(requests made, refreshes attempted, result)`.
The source has no 401 branch here — every non-200 code (401 included) and
every exception just logs and returns `None`, with no refresh and no
retry. -/
def get_feeder_stats (resp : FetchResp) : Nat × Nat × Option JsonDict :=
  match resp with
  | .ok d => (1, 0, d)
  | .authExpired => (1, 0, none)
  | .appError => (1, 0, none)
  | .exn => (1, 0, none)

/-- Model of `api.get_device_attributes`: identical control flow to
`get_feeder_stats` (no 401 handling, no refresh, no retry). -/
def get_device_attributes (resp : FetchResp) : Nat × Nat × Option JsonDict :=
  match resp with
  | .ok d => (1, 0, d)
  | .authExpired => (1, 0, none)
  | .appError => (1, 0, none)
  | .exn => (1, 0, none)

/-- The client's stored token pair (`None` before login). -/
structure ClientState where
  access_token : Option String
  refresh_token : Option String
  deriving Repr, DecidableEq

/-- Outcome of the refresh-token exchange round-trip. -/
inductive RefreshResp
  | ok (access refresh : String)
  | appError
  | exn
  deriving Repr, DecidableEq

/-- Model of `api.refresh_access_token`: returns `(result, requests made, new state)`.
`if not self.refresh_token: return False` fires before any network call;
on a non-200 code or an exception the method returns `False` and leaves
`self.access_token` / `self.refresh_token` untouched. -/
def refresh_access_token (st : ClientState) (resp : RefreshResp) :
    Bool × Nat × ClientState :=
  if ¬ pyTruthyOptStr st.refresh_token then
    (false, 0, st)
  else
    match resp with
    | .ok a r => (true, 1, { access_token := some a, refresh_token := some r })
    | .appError => (false, 1, st)
    | .exn => (false, 1, st)

namespace Api

/-- Model of `api.HGSmartApiClient.build_plan_value` (the legacy `HHMMPPEE` encoder;
distinct from `helpers.build_plan_value`).  The source's `elif` chain maps
`create → (enabled 1, op 3)`, `edit → (1, 2)`, `disable → (0, 2)`,
`delete → early return of f"3200{portions:02d}{slot}{1}"`, anything
else → `(1, 2)`; the non-delete branches share the final format line. -/
def build_plan_value (hour minute portions slot : Int)
    (operation : String := "edit") : String :=
  if operation = "delete" then
    "3200" ++ pyFmt02 portions ++ toString slot ++ toString (1 : Int)
  else
    let p : Int × Int :=
      if operation = "create" then (1, 3)
      else if operation = "edit" then (1, 2)
      else if operation = "disable" then (0, 2)
      else (1, 2)
    let ee := toString p.1 ++ toString slot ++ toString p.2
    pyFmt02 hour ++ pyFmt02 minute ++ pyFmt02 portions ++ ee

end Api

/-- Outcome of a control PUT round-trip (`code == 200`, other code, or a
raised exception). -/
inductive CtrlResp
  | ok
  | appError
  | exn
  deriving Repr, DecidableEq

/-- Python `f"{n:02x}"`: lowercase hex, zero-padded to width 2. -/
def pyHex02 (n : Nat) : String :=
  let s := String.mk (Nat.toDigits 16 n)
  if s.length < 2 then "0" ++ s else s

/-- Model of `api.send_feed_command`: returns `(requests made, command value, result)`.
The signature takes no portions argument and the body performs no input
validation: the PUT (carrying `f"0120{minute_hex}01"`) is always issued. -/
def send_feed_command (current_minute : Nat) (resp : CtrlResp) :
    Nat × String × Bool :=
  let minute_hex := pyHex02 current_minute
  let command_value := "0120" ++ minute_hex ++ "01"
  (1, command_value, resp = .ok)

/-- Model of `api.set_feeding_schedule`: returns `(requests made, command value,
result)`.  No range validation of `slot`/`hour`/`minute`/`portions` is
performed; the PUT is always issued with the encoded command. -/
def set_feeding_schedule (slot hour minute portions : Int) (enabled : Bool)
    (resp : CtrlResp) : Nat × String × Bool :=
  let operation := if enabled then "edit" else "disable"
  let command_value := Api.build_plan_value hour minute portions slot operation
  (1, command_value, resp = .ok)

/-! ## Sync coordinator (`coordinator.py`) -/

/-- Constant `SCHEDULE_SLOTS` from `const.py`. -/
def SCHEDULE_SLOTS : Nat := 6

/-- The default record the coordinator stores for a missing/undecoded slot. -/
def default_slot (slot : Nat) : ScheduleSlotData :=
  { enabled := false, hour := 8, minute := 0, portions := 1, slot := (slot : Int) }

/-- One device's entry in the coordinator snapshot. -/
structure DeviceData where
  device_info : Device
  stats : JsonDict
  attributes : JsonDict
  schedules : List (Nat × ScheduleSlotData)
  deriving Repr, DecidableEq

/-- The aggregated snapshot: `device_id → DeviceData` (association-list
model of the Python dict, one entry per supported device in list order). -/
abbrev Snapshot := List (String × DeviceData)

/-- The per-device body of the coordinator loop: builds the schedule table
(`schedules` stays `{}` when `attributes` is falsy — `None` or an empty
dict — otherwise one entry per slot `0..5`, defaulting missing or
undecodable plans), and stores `stats or {}` / `attributes or {}`. -/
def mkDeviceData (device : Device) (stats : Option JsonDict)
    (attributes : Option JsonDict) : DeviceData :=
  let schedules : List (Nat × ScheduleSlotData) :=
    match attributes with
    | none => []
    | some a =>
        if a.isEmpty then []
        else
          (List.range SCHEDULE_SLOTS).map fun slot =>
            let plan_value := dictGet a ("plan" ++ toString slot) "0"
            (slot, match parse_plan_value plan_value with
                   | some parsed => parsed
                   | none => default_slot slot)
  { device_info := device
    stats := stats.getD []
    attributes := attributes.getD []
    schedules := schedules }

/-- The environment one sync cycle runs against: the (post-retry) result of
`get_devices`, and each device's stats / attributes fetch result keyed by
device id (`none` = the fetch failed and returned `None`). -/
structure Env where
  devices : List Device
  stats : String → Option JsonDict
  attributes : String → Option JsonDict

/-- Model of `coordinator._async_update_data`: fails (`UpdateFailed`, wrapped by the
outer `except` clause) when the device list is empty or no `S25D` device
remains after filtering; otherwise builds one `DeviceData` per supported
device — a failed stats or attributes fetch never fails the cycle. -/
def async_update_data (env : Env) : Except String Snapshot :=
  if env.devices.isEmpty then
    .error "Error communicating with API: No devices found or API error"
  else
    let supported := env.devices.filter fun d => d.type = "S25D"
    if supported.isEmpty then
      .error "Error communicating with API: No supported S25D devices found"
    else
      .ok (supported.map fun d =>
        (d.deviceId, mkDeviceData d (env.stats d.deviceId) (env.attributes d.deviceId)))

/-- The coordinator's externally visible state: the last published snapshot
(if any) and the success flag. -/
structure CoordinatorState where
  data : Option Snapshot
  last_update_success : Bool
  deriving Repr, DecidableEq

/-- Modelled from the spec: the refresh step of Home Assistant's
`DataUpdateCoordinator` base class, which is not part of this repository's
sources — per the spec, a cycle that raises `UpdateFailed` leaves the
previously published snapshot in place and sets the success flag false,
while a successful cycle replaces the snapshot wholesale and sets the flag
true. -/
def coordinator_refresh (st : CoordinatorState) (env : Env) : CoordinatorState :=
  match async_update_data env with
  | .ok snap => { data := some snap, last_update_success := true }
  | .error _ => { data := st.data, last_update_success := false }

end HGSmart

namespace HGSmart

/-! ## Digit-string lemmas for the codec -/

/-- ASCII character of a decimal digit. -/
def dChar (d : Nat) : Char := Char.ofNat (48 + d)

/-- Status field of a plan string, as the spec slices it (`s[0]`). -/
def planStatus (s : String) : Nat := digitsVal (pySlice s 0 1).data

/-- Hour field of a plan string, as the spec slices it (`s[1:3]`). -/
def planHour (s : String) : Nat := digitsVal (pySlice s 1 3).data

/-- Minute field of a plan string, as the spec slices it (`s[3:5]`). -/
def planMinute (s : String) : Nat := digitsVal (pySlice s 3 5).data

/-- Portions field of a plan string, as the spec slices it (`s[6]`). -/
def planPortions (s : String) : Nat := digitsVal (pySlice s 6 7).data

/-! ## Concrete fixtures used by witnesses and counterexamples -/

/-- Fixture: environment whose device-list call produced no devices. -/
def envNoDevices : Env := ⟨[], fun _ => none, fun _ => none⟩

/-- Fixture: a previously published snapshot. -/
def oldSnapshot : Snapshot := [("old", mkDeviceData ⟨"old", "S25D"⟩ none none)]

/-- Fixture: one supported device whose attributes fetch failed. -/
def envAttrsFail : Env := ⟨[⟨"dev1", "S25D"⟩], fun _ => none, fun _ => none⟩

/-- Fixture: three supported devices, the second one's stats and attributes
fetches failing. -/
def envOneOfThreeFails : Env :=
  ⟨[⟨"d1", "S25D"⟩, ⟨"d2", "S25D"⟩, ⟨"d3", "S25D"⟩],
    fun i => if i = "d2" then none else some [("surplusGrain", "80")],
    fun i => if i = "d2" then none else some [("plan0", "10940033")]⟩

/-- Fixture: one supported device with a decodable plan in slot 0. -/
def envSchedules : Env :=
  ⟨[⟨"dev1", "S25D"⟩], fun _ => some [("surplusGrain", "80")],
    fun _ => some [("plan0", "10940033")]⟩

theorem pyInt_one_fin : ∀ d : Fin 10, pyInt? (String.mk [dChar d.1]) = some (d.1 : Int) := by
  decide

theorem pyInt_two_fin : ∀ a b : Fin 10,
    pyInt? (String.mk [dChar a.1, dChar b.1]) = some ((10 * a.1 + b.1 : Nat) : Int) := by
  decide

theorem fmt02_fin : ∀ n : Fin 100,
    pyFmt02 (n.1 : Int) = String.mk [dChar (n.1 / 10), dChar (n.1 % 10)] := by
  decide

theorem toStr_digit_fin : ∀ n : Fin 10, toString (n.1 : Int) = String.mk [dChar n.1] := by
  decide

theorem pyInt_one (d : Nat) (h : d < 10) : pyInt? (String.mk [dChar d]) = some (d : Int) :=
  pyInt_one_fin ⟨d, h⟩

theorem pyInt_two (a b : Nat) (ha : a < 10) (hb : b < 10) :
    pyInt? (String.mk [dChar a, dChar b]) = some ((10 * a + b : Nat) : Int) :=
  pyInt_two_fin ⟨a, ha⟩ ⟨b, hb⟩

theorem parsePlanBody_digits (d0 d1 d2 d3 d4 : Nat) (c5 : Char) (d6 d7 : Nat)
    (rest : List Char)
    (h0 : d0 < 10) (h1 : d1 < 10) (h2 : d2 < 10) (h3 : d3 < 10) (h4 : d4 < 10)
    (h6 : d6 < 10) (h7 : d7 < 10) :
    parsePlanBody (String.mk (dChar d0 :: dChar d1 :: dChar d2 :: dChar d3 ::
        dChar d4 :: c5 :: dChar d6 :: dChar d7 :: rest)) =
      .ok (if 10 * d1 + d2 ≤ 23 ∧ 10 * d3 + d4 ≤ 59 ∧ d0 ≠ 0 ∧ d0 ≠ 3 ∧ d6 ≠ 0 then
        some { enabled := decide (d0 = 1), hour := (10 * d1 + d2 : Nat),
               minute := (10 * d3 + d4 : Nat), portions := (d6 : Nat), slot := (d7 : Nat) }
      else none) := by
  unfold parsePlanBody
  rw [show pyGetChar (String.mk (dChar d0 :: dChar d1 :: dChar d2 :: dChar d3 ::
        dChar d4 :: c5 :: dChar d6 :: dChar d7 :: rest)) 0 = .ok (dChar d0) from rfl,
    show pyGetChar (String.mk (dChar d0 :: dChar d1 :: dChar d2 :: dChar d3 ::
        dChar d4 :: c5 :: dChar d6 :: dChar d7 :: rest)) 6 = .ok (dChar d6) from rfl,
    show pyGetChar (String.mk (dChar d0 :: dChar d1 :: dChar d2 :: dChar d3 ::
        dChar d4 :: c5 :: dChar d6 :: dChar d7 :: rest)) 7 = .ok (dChar d7) from rfl,
    show pySlice (String.mk (dChar d0 :: dChar d1 :: dChar d2 :: dChar d3 ::
        dChar d4 :: c5 :: dChar d6 :: dChar d7 :: rest)) 1 3 = String.mk [dChar d1, dChar d2] from rfl,
    show pySlice (String.mk (dChar d0 :: dChar d1 :: dChar d2 :: dChar d3 ::
        dChar d4 :: c5 :: dChar d6 :: dChar d7 :: rest)) 3 5 = String.mk [dChar d3, dChar d4] from rfl]
  simp only [pyIntE, pyInt_one d0 h0, pyInt_one d6 h6, pyInt_one d7 h7,
    pyInt_two d1 d2 h1 h2, pyInt_two d3 d4 h3 h4, Except.bind, bind, pure,
    Except.pure]
  split_ifs with hA hB hC hD hE <;>
    first
      | rfl
      | (exfalso; push_cast at *; omega)
      | (have hiff : ((d0 : Int) = 1) ↔ d0 = 1 := by
           constructor <;> intro h <;> exact_mod_cast h
         simp only [hiff])

theorem parse_digits (d0 d1 d2 d3 d4 : Nat) (c5 : Char) (d6 d7 : Nat)
    (rest : List Char)
    (h0 : d0 < 10) (h1 : d1 < 10) (h2 : d2 < 10) (h3 : d3 < 10) (h4 : d4 < 10)
    (h6 : d6 < 10) (h7 : d7 < 10) :
    parse_plan_value (String.mk (dChar d0 :: dChar d1 :: dChar d2 :: dChar d3 ::
        dChar d4 :: c5 :: dChar d6 :: dChar d7 :: rest)) =
      if 10 * d1 + d2 ≤ 23 ∧ 10 * d3 + d4 ≤ 59 ∧ d0 ≠ 0 ∧ d0 ≠ 3 ∧ d6 ≠ 0 then
        some { enabled := decide (d0 = 1), hour := (10 * d1 + d2 : Nat),
               minute := (10 * d3 + d4 : Nat), portions := (d6 : Nat), slot := (d7 : Nat) }
      else none := by
  unfold parse_plan_value parse_plan_valueE
  have hne : pyTruthyStr (String.mk (dChar d0 :: dChar d1 :: dChar d2 :: dChar d3 ::
      dChar d4 :: c5 :: dChar d6 :: dChar d7 :: rest)) = true := by
    simp [pyTruthyStr, String.ext_iff]
  have hz : ¬ (String.mk (dChar d0 :: dChar d1 :: dChar d2 :: dChar d3 ::
      dChar d4 :: c5 :: dChar d6 :: dChar d7 :: rest) = "0") := by
    intro h
    have := congrArg String.data h
    simp at this
  have hlen : ¬ ((String.mk (dChar d0 :: dChar d1 :: dChar d2 :: dChar d3 ::
      dChar d4 :: c5 :: dChar d6 :: dChar d7 :: rest)).length < 8) := by
    simp [String.length]
  rw [if_neg (by simp [hne, hz, hlen])]
  rw [parsePlanBody_digits d0 d1 d2 d3 d4 c5 d6 d7 rest h0 h1 h2 h3 h4 h6 h7]

theorem fmt02_eq (n : Int) (h0 : 0 ≤ n) (h1 : n ≤ 99) :
    pyFmt02 n = String.mk [dChar (n.toNat / 10), dChar (n.toNat % 10)] := by
  have hn : n = ((n.toNat : Nat) : Int) := (Int.toNat_of_nonneg h0).symm
  have hlt : n.toNat < 100 := by omega
  rw [hn]
  exact fmt02_fin ⟨n.toNat, hlt⟩

theorem toStr_digit (n : Int) (h0 : 0 ≤ n) (h1 : n ≤ 9) :
    toString n = String.mk [dChar n.toNat] := by
  have hn : n = ((n.toNat : Nat) : Int) := (Int.toNat_of_nonneg h0).symm
  have hlt : n.toNat < 10 := by omega
  rw [hn]
  exact toStr_digit_fin ⟨n.toNat, hlt⟩

theorem build_data (hour minute portions slot : Int) (e : Bool)
    (hh0 : 0 ≤ hour) (hh1 : hour ≤ 99) (hm0 : 0 ≤ minute) (hm1 : minute ≤ 99)
    (hp0 : 0 ≤ portions) (hp1 : portions ≤ 9) (hs0 : 0 ≤ slot) (hs1 : slot ≤ 9) :
    (build_plan_value hour minute portions slot e).data =
      dChar (if e then 1 else 0) :: dChar (hour.toNat / 10) :: dChar (hour.toNat % 10) ::
      dChar (minute.toNat / 10) :: dChar (minute.toNat % 10) :: '0' ::
      dChar portions.toNat :: dChar slot.toNat :: [] := by
  unfold build_plan_value
  rw [fmt02_eq hour hh0 hh1, fmt02_eq minute hm0 hm1,
    toStr_digit portions hp0 hp1, toStr_digit slot hs0 hs1]
  cases e <;>
    simp [String.data_append, dChar,
      show (toString (0 : Int)).data = [Char.ofNat 48] from rfl,
      show (toString (1 : Int)).data = [Char.ofNat 49] from rfl]

theorem digit_char {c : Char} (h : isAsciiDigit c = true) :
    ∃ d, d < 10 ∧ c = dChar d := by
  have h1 : 48 ≤ c.toNat ∧ c.toNat ≤ 57 := by
    simp only [isAsciiDigit, Bool.and_eq_true, decide_eq_true_eq] at h
    obtain ⟨ha, hb⟩ := h
    rw [Char.le_def, UInt32.le_def, BitVec.le_def] at ha hb
    exact ⟨ha, hb⟩
  refine ⟨c.toNat - 48, by omega, ?_⟩
  have h2 : dChar (c.toNat - 48) = Char.ofNat c.toNat := by
    unfold dChar
    congr 1
    omega
  rw [h2, Char.ofNat_toNat]

theorem parse_short (s : String) (h : s.length < 8) : parse_plan_value s = none := by
  unfold parse_plan_value parse_plan_valueE
  rw [if_pos (Or.inr (Or.inr h))]

theorem dChar_toNat (d : Nat) (h : d < 10) : (dChar d).toNat = 48 + d :=
  (by decide : ∀ y : Fin 10, (dChar y.1).toNat = 48 + y.1) ⟨d, h⟩

theorem digitsVal_one (a : Nat) (ha : a < 10) : digitsVal [dChar a] = a := by
  simp [digitsVal, dChar_toNat a ha]

theorem digitsVal_two (a b : Nat) (ha : a < 10) (hb : b < 10) :
    digitsVal [dChar a, dChar b] = 10 * a + b := by
  simp [digitsVal, dChar_toNat a ha, dChar_toNat b hb]

theorem pyGetChar_cases (s : String) (i : Nat) :
    pyGetChar s i = .error .indexError ∨ ∃ c, pyGetChar s i = .ok c := by
  unfold pyGetChar
  cases s.data.get? i <;> simp

theorem pyIntE_cases (s : String) :
    pyIntE s = .error .valueError ∨ ∃ n, pyIntE s = .ok n := by
  unfold pyIntE
  cases pyInt? s <;> simp

theorem parsePlanBody_no_other (s : String) : parsePlanBody s ≠ .error .other := by
  unfold parsePlanBody
  rcases pyGetChar_cases s 0 with h0 | ⟨c0, h0⟩ <;> rw [h0] <;>
    simp only [Except.bind, bind] <;> try simp
  rcases pyIntE_cases (String.mk [c0]) with h1 | ⟨st, h1⟩ <;> rw [h1] <;>
    simp only [Except.bind, bind] <;> try simp
  rcases pyIntE_cases (pySlice s 1 3) with h2 | ⟨hr, h2⟩ <;> rw [h2] <;>
    simp only [Except.bind, bind] <;> try simp
  rcases pyIntE_cases (pySlice s 3 5) with h3 | ⟨mi, h3⟩ <;> rw [h3] <;>
    simp only [Except.bind, bind] <;> try simp
  rcases pyGetChar_cases s 6 with h4 | ⟨c6, h4⟩ <;> rw [h4] <;>
    simp only [Except.bind, bind] <;> try simp
  rcases pyIntE_cases (String.mk [c6]) with h5 | ⟨po, h5⟩ <;> rw [h5] <;>
    simp only [Except.bind, bind] <;> try simp
  rcases pyGetChar_cases s 7 with h6 | ⟨c7, h6⟩ <;> rw [h6] <;>
    simp only [Except.bind, bind] <;> try simp
  rcases pyIntE_cases (String.mk [c7]) with h7 | ⟨sl, h7⟩ <;> rw [h7] <;>
    simp only [Except.bind, bind] <;> try simp
  split_ifs <;> simp [pure, Except.pure]

end HGSmart

namespace HGSmart

theorem async_update_data_eq (env : Env) :
    async_update_data env =
      if env.devices.isEmpty then
        .error "Error communicating with API: No devices found or API error"
      else if (env.devices.filter fun d => d.type = "S25D").isEmpty then
        .error "Error communicating with API: No supported S25D devices found"
      else
        .ok ((env.devices.filter fun d => d.type = "S25D").map fun d =>
          (d.deviceId, mkDeviceData d (env.stats d.deviceId) (env.attributes d.deviceId))) :=
  rfl

/-- C4: when the device-list result is empty or no supported S25D device
remains after filtering, the sync cycle fails with an UpdateFailed signal
(an `error` result), the previously published snapshot is retained
unchanged, and the success flag is set false. -/
theorem claim_C4_failed_cycle (st : CoordinatorState) (env : Env)
    (h : env.devices = [] ∨ (env.devices.filter fun d => d.type = "S25D") = []) :
    (∃ msg, async_update_data env = .error msg) ∧
    (coordinator_refresh st env).data = st.data ∧
    (coordinator_refresh st env).last_update_success = false := by
  have herr : ∃ msg, async_update_data env = .error msg := by
    rw [async_update_data_eq]
    by_cases hd : env.devices.isEmpty
    · rw [if_pos hd]
      exact ⟨_, rfl⟩
    · rw [if_neg hd]
      rcases h with h | h
      · exact absurd (by simp [h] : env.devices.isEmpty = true) hd
      · rw [if_pos (by simp [h])]
        exact ⟨_, rfl⟩
  obtain ⟨msg, hmsg⟩ := herr
  refine ⟨⟨msg, hmsg⟩, ?_, ?_⟩ <;> (unfold coordinator_refresh; rw [hmsg])

/-- C5: when at least one supported device exists, the sync cycle succeeds
and the snapshot lists every supported device in order; a device whose
stats fetch or attributes fetch failed is still present, with its stats
respectively attributes stored as the empty map rather than omitted. -/
theorem claim_C5_partial_failure_tolerated (env : Env)
    (h : (env.devices.filter fun d => d.type = "S25D") ≠ []) :
    ∃ snap, async_update_data env = .ok snap ∧
      snap.map Prod.fst = (env.devices.filter fun d => d.type = "S25D").map Device.deviceId ∧
      ∀ e ∈ snap, (env.stats e.1 = none → e.2.stats = []) ∧
        (env.attributes e.1 = none → e.2.attributes = []) := by
  have hdev : ¬ env.devices.isEmpty = true := by
    intro hd
    rw [List.isEmpty_iff] at hd
    simp [hd] at h
  refine ⟨(env.devices.filter fun d => d.type = "S25D").map fun d =>
      (d.deviceId, mkDeviceData d (env.stats d.deviceId) (env.attributes d.deviceId)),
    ?_, ?_, ?_⟩
  · rw [async_update_data_eq, if_neg hdev, if_neg (by simpa [List.isEmpty_iff] using h)]
  · simp [List.map_map, Function.comp]
  · intro e he
    obtain ⟨d, hd, rfl⟩ := List.mem_map.mp he
    constructor
    · intro hst
      simp [mkDeviceData, hst]
    · intro hat
      simp [mkDeviceData, hat]

/-- C6 (amended): in a successfully published snapshot, a device whose
attributes fetch succeeded with a non-empty dict gets a schedule table of
exactly 6 entries, one per slot 0..5, the default record (disabled, 08:00,
1 portion) filling every slot whose plan value is missing or undecodable;
but when the attributes fetch failed (or returned an empty dict) the
device's schedule table is empty, not a 6-entry default table as the
original claim states. -/
theorem claim_C6_schedule_table (env : Env) (snap : Snapshot)
    (hok : async_update_data env = .ok snap) :
    ∀ e ∈ snap,
      (env.attributes e.1 = none → e.2.schedules = []) ∧
      (env.attributes e.1 = some [] → e.2.schedules = []) ∧
      (∀ a, env.attributes e.1 = some a → a ≠ [] →
        e.2.schedules.length = 6 ∧
        e.2.schedules.map Prod.fst = List.range 6 ∧
        (∀ slot ∈ List.range 6,
          parse_plan_value (dictGet a ("plan" ++ toString slot) "0") = none →
            (slot, default_slot slot) ∈ e.2.schedules) ∧
        (∀ slot r, slot ∈ List.range 6 →
          parse_plan_value (dictGet a ("plan" ++ toString slot) "0") = some r →
            (slot, r) ∈ e.2.schedules)) := by
  rw [async_update_data_eq] at hok
  have hsnap : snap = ((env.devices.filter fun d => d.type = "S25D").map fun d =>
      (d.deviceId, mkDeviceData d (env.stats d.deviceId) (env.attributes d.deviceId))) := by
    split_ifs at hok
    exact (Except.ok.inj hok).symm
  subst hsnap
  intro e he
  obtain ⟨d, hd, rfl⟩ := List.mem_map.mp he
  refine ⟨?_, ?_, ?_⟩
  · intro hat
    simp [mkDeviceData, hat]
  · intro hat
    simp [mkDeviceData, hat]
  · intro a hat hane
    have hne : a.isEmpty = false := by
      cases a
      · exact absurd rfl hane
      · rfl
    refine ⟨?_, ?_, ?_, ?_⟩
    · simp [mkDeviceData, hat, hne, SCHEDULE_SLOTS]
    · simp only [mkDeviceData, hat, hne, SCHEDULE_SLOTS, List.map_map]
      rfl
    · intro slot hslot hparse
      simp only [mkDeviceData, hat, hne]
      refine List.mem_map.mpr ⟨slot, by simpa [SCHEDULE_SLOTS] using hslot, ?_⟩
      simp [hparse]
    · intro slot r hslot hparse
      simp only [mkDeviceData, hat, hne]
      refine List.mem_map.mpr ⟨slot, by simpa [SCHEDULE_SLOTS] using hslot, ?_⟩
      simp [hparse]

end HGSmart

namespace HGSmart

theorem parse_none_iff_digits : ∀ s : String, s.data.all isAsciiDigit = true →
    (parse_plan_value s = none ↔
      s = "" ∨ s = "0" ∨ s.length < 8 ∨ 23 < planHour s ∨ 59 < planMinute s ∨
      planPortions s = 0 ∨ planStatus s = 0 ∨ planStatus s = 3) := by
  intro s hdig
  by_cases hlen : s.length < 8
  · simp [parse_short s hlen, hlen]
  · obtain ⟨l⟩ := s
    have hlen' : 8 ≤ l.length := by simpa [String.length] using hlen
    match l, hlen' with
    | c0 :: c1 :: c2 :: c3 :: c4 :: c5 :: c6 :: c7 :: rest, _ =>
      simp only [List.all_cons, Bool.and_eq_true] at hdig
      obtain ⟨e0, e1, e2, e3, e4, e5, e6, e7, _⟩ := hdig
      obtain ⟨d0, hd0, rfl⟩ := digit_char e0
      obtain ⟨d1, hd1, rfl⟩ := digit_char e1
      obtain ⟨d2, hd2, rfl⟩ := digit_char e2
      obtain ⟨d3, hd3, rfl⟩ := digit_char e3
      obtain ⟨d4, hd4, rfl⟩ := digit_char e4
      obtain ⟨d6, hd6, rfl⟩ := digit_char e6
      obtain ⟨d7, hd7, rfl⟩ := digit_char e7
      rw [parse_digits d0 d1 d2 d3 d4 c5 d6 d7 rest hd0 hd1 hd2 hd3 hd4 hd6 hd7]
      have hstat : planStatus (String.mk (dChar d0 :: dChar d1 :: dChar d2 :: dChar d3 ::
          dChar d4 :: c5 :: dChar d6 :: dChar d7 :: rest)) = d0 := by
        simp [planStatus, pySlice, digitsVal_one d0 hd0]
      have hhour : planHour (String.mk (dChar d0 :: dChar d1 :: dChar d2 :: dChar d3 ::
          dChar d4 :: c5 :: dChar d6 :: dChar d7 :: rest)) = 10 * d1 + d2 := by
        simp [planHour, pySlice, digitsVal_two d1 d2 hd1 hd2]
      have hmin : planMinute (String.mk (dChar d0 :: dChar d1 :: dChar d2 :: dChar d3 ::
          dChar d4 :: c5 :: dChar d6 :: dChar d7 :: rest)) = 10 * d3 + d4 := by
        simp [planMinute, pySlice, digitsVal_two d3 d4 hd3 hd4]
      have hport : planPortions (String.mk (dChar d0 :: dChar d1 :: dChar d2 :: dChar d3 ::
          dChar d4 :: c5 :: dChar d6 :: dChar d7 :: rest)) = d6 := by
        simp [planPortions, pySlice, digitsVal_one d6 hd6]
      rw [hstat, hhour, hmin, hport]
      have hne : ¬ (String.mk (dChar d0 :: dChar d1 :: dChar d2 :: dChar d3 ::
          dChar d4 :: c5 :: dChar d6 :: dChar d7 :: rest) = "") := by
        intro h
        have := congrArg String.data h
        simp at this
      have hz : ¬ (String.mk (dChar d0 :: dChar d1 :: dChar d2 :: dChar d3 ::
          dChar d4 :: c5 :: dChar d6 :: dChar d7 :: rest) = "0") := by
        intro h
        have := congrArg String.data h
        simp at this
      simp only [hne, hz, hlen, false_or]
      split_ifs with h
      · constructor
        · intro hfalse
          simp at hfalse
        · intro hdisj
          exfalso
          omega
      · simp only [true_iff]
        omega

/-- C1 counterexample: `get_devices` facing two consecutive 401 responses
with both refreshes succeeding makes three requests and two refreshes
(the recursion is unbounded), contradicting "exactly one refresh, exactly
one retry, no second refresh"; and `get_feeder_stats` facing a 401 makes
no refresh at all, contradicting "performs exactly one token refresh" for
that operation. -/
theorem claim_C1_counterexample :
    get_devices [.authExpired, .authExpired, .ok []] [true, true] = some (3, 2, []) ∧
    get_feeder_stats .authExpired = (1, 0, none) := by
  decide

/-- C1 (amended): only `get_devices` reacts to code 401 — it refreshes once
and recursively re-invokes itself with no retry bound, so n consecutive
401s with successful refreshes cost n refreshes and n+1 requests, and the
recursion stops only on a non-401 response or a failed refresh (which
returns the empty list after one refresh attempt); `get_feeder_stats` and
`get_device_attributes` always make exactly one request and zero
refreshes, returning absent on a 401. -/
theorem claim_C1_retry_via_recursion :
    (∀ ds rest refreshes, get_devices (.ok ds :: rest) refreshes = some (1, 0, ds)) ∧
    (∀ rest bs, get_devices (.authExpired :: rest) (false :: bs) = some (1, 1, [])) ∧
    (∀ n ds, get_devices (List.replicate n .authExpired ++ [.ok ds])
        (List.replicate n true) = some (n + 1, n, ds)) ∧
    (∀ r, (get_feeder_stats r).1 = 1 ∧ (get_feeder_stats r).2.1 = 0) ∧
    (∀ r, (get_device_attributes r).1 = 1 ∧ (get_device_attributes r).2.1 = 0) := by
  refine ⟨fun _ _ _ => rfl, fun _ _ => rfl, ?_, ?_, ?_⟩
  · intro n ds
    induction n with
    | zero => rfl
    | succ n ih => simp [List.replicate_succ, get_devices, ih]
  · intro r
    cases r <;> exact ⟨rfl, rfl⟩
  · intro r
    cases r <;> exact ⟨rfl, rfl⟩

/-- C2 counterexample: encoding with `enabled = false` writes status digit
0, which the decoder rejects, so the round-trip yields absent instead of a
record with `enabled = false` as the claim requires. -/
theorem claim_C2_counterexample :
    build_plan_value 8 30 2 1 false = "00830021" ∧
    parse_plan_value (build_plan_value 8 30 2 1 false) = none := by
  decide

/-- C2 (amended): for every hour in 0..23, minute in 0..59, portions in
1..9 and slot in 0..5, decoding the canonical 8-character encoding with
`enabled = true` yields a record with exactly the encoded hour, minute,
portions, slot and enabled; with `enabled = false` the encoder emits
status digit 0 and decoding yields absent. -/
theorem claim_C2_roundtrip (hour minute portions slot : Int)
    (hh0 : 0 ≤ hour) (hh1 : hour ≤ 23) (hm0 : 0 ≤ minute) (hm1 : minute ≤ 59)
    (hp0 : 1 ≤ portions) (hp1 : portions ≤ 9) (hs0 : 0 ≤ slot) (hs1 : slot ≤ 5) :
    parse_plan_value (build_plan_value hour minute portions slot true) =
      some { enabled := true, hour := hour, minute := minute,
             portions := portions, slot := slot } ∧
    parse_plan_value (build_plan_value hour minute portions slot false) = none := by
  constructor
  · have hs : build_plan_value hour minute portions slot true =
        String.mk (dChar 1 :: dChar (hour.toNat / 10) :: dChar (hour.toNat % 10) ::
          dChar (minute.toNat / 10) :: dChar (minute.toNat % 10) :: '0' ::
          dChar portions.toNat :: dChar slot.toNat :: []) := by
      apply String.ext
      rw [build_data hour minute portions slot true hh0 (by omega) hm0 (by omega)
        (by omega) hp1 hs0 (by omega)]
      simp
    rw [hs]
    have h05 : ('0' : Char) = dChar 0 := by decide
    rw [h05, parse_digits 1 (hour.toNat / 10) (hour.toNat % 10) (minute.toNat / 10)
      (minute.toNat % 10) (dChar 0) portions.toNat slot.toNat []
      (by omega) (by omega) (by omega) (by omega) (by omega) (by omega) (by omega)]
    rw [if_pos (by refine ⟨by omega, by omega, by omega, by omega, by omega⟩)]
    simp only [Option.some.injEq, ScheduleSlotData.mk.injEq]
    refine ⟨by decide, by omega, by omega, by omega, by omega⟩
  · have hs : build_plan_value hour minute portions slot false =
        String.mk (dChar 0 :: dChar (hour.toNat / 10) :: dChar (hour.toNat % 10) ::
          dChar (minute.toNat / 10) :: dChar (minute.toNat % 10) :: '0' ::
          dChar portions.toNat :: dChar slot.toNat :: []) := by
      apply String.ext
      rw [build_data hour minute portions slot false hh0 (by omega) hm0 (by omega)
        (by omega) hp1 hs0 (by omega)]
      simp
    rw [hs]
    have h05 : ('0' : Char) = dChar 0 := by decide
    rw [h05, parse_digits 0 (hour.toNat / 10) (hour.toNat % 10) (minute.toNat / 10)
      (minute.toNat % 10) (dChar 0) portions.toNat slot.toNat []
      (by omega) (by omega) (by omega) (by omega) (by omega) (by omega) (by omega)]
    rw [if_neg (by simp)]

/-- Witness for C2 at hour 9, minute 40, portions 3, slot 3. -/
theorem claim_C2_roundtrip_witness :
    parse_plan_value (build_plan_value 9 40 3 3 true) =
      some { enabled := true, hour := 9, minute := 40, portions := 3, slot := 3 } ∧
    parse_plan_value (build_plan_value 9 40 3 3 false) = none :=
  claim_C2_roundtrip 9 40 3 3 (by decide) (by decide) (by decide) (by decide)
    (by decide) (by decide) (by decide) (by decide)

end HGSmart

namespace HGSmart

/-- C3 counterexample: `set_feeding_schedule` with portions 0 and with
portions 11 still issues its one network request (no ValidationError, no
fail-fast), and `send_feed_command` — which takes no portions argument at
all — likewise always issues its request. -/
theorem claim_C3_counterexample :
    (set_feeding_schedule 0 8 0 0 true .ok).1 = 1 ∧
    (set_feeding_schedule 0 8 0 11 true .ok).1 = 1 ∧
    (send_feed_command 30 .ok).1 = 1 := by
  decide

/-- C3 (amended): no control operation validates input ranges before the
network call — `send_feed_command` has no portions parameter and
`set_feeding_schedule` accepts any slot/hour/minute/portions — and both
always issue exactly one request whatever the arguments. -/
theorem claim_C3_no_validation :
    (∀ m r, (send_feed_command m r).1 = 1) ∧
    (∀ slot hour minute portions enabled r,
      (set_feeding_schedule slot hour minute portions enabled r).1 = 1) :=
  ⟨fun _ _ => rfl, fun _ _ _ _ _ _ => rfl⟩

/-- Witness for C4: zero devices, with an old snapshot published. -/
theorem claim_C4_failed_cycle_witness :
    (envNoDevices.devices = [] ∨
      (envNoDevices.devices.filter fun d => d.type = "S25D") = []) ∧
    (coordinator_refresh ⟨some oldSnapshot, true⟩ envNoDevices).data = some oldSnapshot ∧
    (coordinator_refresh ⟨some oldSnapshot, true⟩ envNoDevices).last_update_success = false :=
  ⟨Or.inl rfl,
    (claim_C4_failed_cycle ⟨some oldSnapshot, true⟩ envNoDevices (Or.inl rfl)).2.1,
    (claim_C4_failed_cycle ⟨some oldSnapshot, true⟩ envNoDevices (Or.inl rfl)).2.2⟩

/-- Witness for C5: three supported devices, the second one's fetches
failing. -/
theorem claim_C5_partial_failure_tolerated_witness :
    (envOneOfThreeFails.devices.filter fun d => d.type = "S25D") ≠ [] ∧
    (∃ snap, async_update_data envOneOfThreeFails = .ok snap ∧
      snap.map Prod.fst =
        (envOneOfThreeFails.devices.filter fun d => d.type = "S25D").map Device.deviceId ∧
      ∀ e ∈ snap, (envOneOfThreeFails.stats e.1 = none → e.2.stats = []) ∧
        (envOneOfThreeFails.attributes e.1 = none → e.2.attributes = [])) :=
  ⟨by decide, claim_C5_partial_failure_tolerated envOneOfThreeFails (by decide)⟩

/-- C6 counterexample: a supported device whose attributes fetch failed is
published with an empty schedule table (0 entries), not a complete
6-element table of defaults as the claim requires. -/
theorem claim_C6_counterexample :
    async_update_data envAttrsFail =
      .ok [("dev1", mkDeviceData ⟨"dev1", "S25D"⟩ none none)] ∧
    (mkDeviceData ⟨"dev1", "S25D"⟩ none none).schedules.length = 0 :=
  ⟨rfl, rfl⟩

/-- Witness for C6: one supported device with a decodable plan in slot 0
has a 6-entry table containing the decoded slot and a default slot. -/
theorem claim_C6_schedule_table_witness :
    (mkDeviceData ⟨"dev1", "S25D"⟩ (some [("surplusGrain", "80")])
        (some [("plan0", "10940033")])).schedules.length = 6 ∧
    (mkDeviceData ⟨"dev1", "S25D"⟩ (some [("surplusGrain", "80")])
        (some [("plan0", "10940033")])).schedules.map Prod.fst = List.range 6 := by
  have h := claim_C6_schedule_table envSchedules _ rfl
    ("dev1", mkDeviceData ⟨"dev1", "S25D"⟩ (some [("surplusGrain", "80")])
      (some [("plan0", "10940033")])) (by decide)
  have h2 := h.2.2 [("plan0", "10940033")] rfl (by decide)
  exact ⟨h2.1, h2.2.1⟩

end HGSmart

namespace HGSmart

/-- C7 counterexample: "1094003:" is rejected (the slot field fails integer
conversion, raising ValueError, caught and mapped to absent), yet none of
the claim's listed rejection cases holds for it — the list is not
exhaustive over arbitrary input strings. -/
theorem claim_C7_counterexample :
    parse_plan_value "1094003:" = none ∧
    ¬ (("1094003:" : String) = "" ∨ ("1094003:" : String) = "0" ∨
      ("1094003:" : String).length < 8 ∨ 23 < planHour "1094003:" ∨
      59 < planMinute "1094003:" ∨ planPortions "1094003:" = 0 ∨
      planStatus "1094003:" = 0 ∨ planStatus "1094003:" = 3) := by
  decide

/-- C7 (amended): restricted to strings of decimal digits, the listed
rejection cases are exhaustive — `parse_plan_value` returns absent exactly
when the string is empty, equals "0", is shorter than 8 characters, the
hour field exceeds 23, the minute field exceeds 59, the portions digit is
0, or the status digit is 0 or 3; a field that fails integer conversion is
an additional rejection case for non-digit input.  The claim's concrete
examples all hold, including decode("10940033") = {enabled, 09:40,
3 portions, slot 3}. -/
theorem claim_C7_rejection_cases :
    (∀ s : String, s.data.all isAsciiDigit = true →
      (parse_plan_value s = none ↔
        s = "" ∨ s = "0" ∨ s.length < 8 ∨ 23 < planHour s ∨ 59 < planMinute s ∨
        planPortions s = 0 ∨ planStatus s = 0 ∨ planStatus s = 3)) ∧
    parse_plan_value "" = none ∧
    parse_plan_value "0" = none ∧
    parse_plan_value "1234" = none ∧
    parse_plan_value "32234501" = none ∧
    parse_plan_value "10940033" =
      some { enabled := true, hour := 9, minute := 40, portions := 3, slot := 3 } :=
  ⟨parse_none_iff_digits, by decide, by decide, by decide, by decide, by decide⟩

/-- Witness for C7 at the all-digit input "32234501" (status digit 3). -/
theorem claim_C7_rejection_cases_witness :
    ("32234501" : String).data.all isAsciiDigit = true ∧
    (parse_plan_value "32234501" = none ↔
      ("32234501" : String) = "" ∨ ("32234501" : String) = "0" ∨
      ("32234501" : String).length < 8 ∨ 23 < planHour "32234501" ∨
      59 < planMinute "32234501" ∨ planPortions "32234501" = 0 ∨
      planStatus "32234501" = 0 ∨ planStatus "32234501" = 3) :=
  ⟨by decide, claim_C7_rejection_cases.1 "32234501" (by decide)⟩

/-- C8 counterexample: the encoder does not emit 8 characters for every
input — portions 10 renders as two digits, yielding a 9-character string
(and `api.py`'s legacy encoder emits 9 characters even for in-range
non-delete input, its trailer being three digits). -/
theorem claim_C8_counterexample :
    (build_plan_value 8 0 10 0 true).length = 9 ∧
    (Api.build_plan_value 8 0 3 2 "edit").length = 9 := by
  decide

/-- C8 (amended): `helpers.build_plan_value` emits exactly 8 characters
whenever each field's decimal rendering fits its width (hour and minute in
0..99, portions and slot in 0..9); it performs no clamping, writing
out-of-range values verbatim — portions 10 appears as "10" and lengthens
the output to 9 characters. -/
theorem claim_C8_fixed_width :
    (∀ hour minute portions slot : Int, ∀ e : Bool,
      0 ≤ hour → hour ≤ 99 → 0 ≤ minute → minute ≤ 99 →
      0 ≤ portions → portions ≤ 9 → 0 ≤ slot → slot ≤ 9 →
      (build_plan_value hour minute portions slot e).length = 8) ∧
    build_plan_value 8 0 10 0 true = "108000100" := by
  constructor
  · intro hour minute portions slot e hh0 hh1 hm0 hm1 hp0 hp1 hs0 hs1
    have h := build_data hour minute portions slot e hh0 hh1 hm0 hm1 hp0 hp1 hs0 hs1
    simp [String.length, h]
  · decide

/-- Witness for C8 at hour 23, minute 59, portions 9, slot 5. -/
theorem claim_C8_fixed_width_witness :
    (build_plan_value 23 59 9 5 true).length = 8 :=
  claim_C8_fixed_width.1 23 59 9 5 true (by decide) (by decide) (by decide)
    (by decide) (by decide) (by decide) (by decide) (by decide)

/-- C9 counterexample: a failed refresh exchange returns failure but leaves
the stored token pair exactly as it was — the client does not drop to the
tokenless Unauthenticated state. -/
theorem claim_C9_counterexample :
    refresh_access_token ⟨some "token-a", some "token-r"⟩ .appError =
      (false, 1, ⟨some "token-a", some "token-r"⟩) ∧
    (⟨some "token-a", some "token-r"⟩ : ClientState) ≠ ⟨none, none⟩ := by
  decide

/-- C9 (amended): `refresh_access_token` requires a stored truthy refresh
token — with none (or an empty one) it fails without any network call; on
a failed exchange it makes exactly one request, returns failure, and
retains the stored token pair unchanged (it neither discards the pair nor
re-runs login); on success it replaces the pair with the returned one. -/
theorem claim_C9_refresh_behavior (st : ClientState) (resp : RefreshResp) :
    (¬ pyTruthyOptStr st.refresh_token = true →
      refresh_access_token st resp = (false, 0, st)) ∧
    (pyTruthyOptStr st.refresh_token = true → (resp = .appError ∨ resp = .exn) →
      refresh_access_token st resp = (false, 1, st)) ∧
    (∀ a r, pyTruthyOptStr st.refresh_token = true →
      refresh_access_token st (.ok a r) =
        (true, 1, { access_token := some a, refresh_token := some r })) := by
  refine ⟨?_, ?_, ?_⟩
  · intro h
    unfold refresh_access_token
    rw [if_pos h]
  · intro h hrsp
    unfold refresh_access_token
    rw [if_neg (by simp [h])]
    rcases hrsp with rfl | rfl <;> rfl
  · intro a r h
    unfold refresh_access_token
    rw [if_neg (by simp [h])]

/-- Witness for C9: no stored token, a failing exchange, and a succeeding
exchange, each at concrete states. -/
theorem claim_C9_refresh_behavior_witness :
    refresh_access_token ⟨none, none⟩ .appError = (false, 0, ⟨none, none⟩) ∧
    refresh_access_token ⟨some "a", some "r"⟩ .exn = (false, 1, ⟨some "a", some "r"⟩) ∧
    refresh_access_token ⟨some "a", some "r"⟩ (.ok "na" "nr") =
      (true, 1, { access_token := some "na", refresh_token := some "nr" }) :=
  ⟨(claim_C9_refresh_behavior ⟨none, none⟩ .appError).1 (by decide),
    (claim_C9_refresh_behavior ⟨some "a", some "r"⟩ .exn).2.1 (by decide) (Or.inr rfl),
    (claim_C9_refresh_behavior ⟨some "a", some "r"⟩ (.ok "na" "nr")).2.2 "na" "nr" (by decide)⟩

/-- C10: `parse_plan_value` is total — for every input string the explicit
exception-flow model returns an `ok` result (the only exceptions the body
can raise are ValueError and IndexError, both caught and mapped to
absent), so no exception reaches the caller and the result is either a
record or absent. -/
theorem claim_C10_never_raises :
    ∀ s : String, ∃ r, parse_plan_valueE s = .ok r ∧ parse_plan_value s = r := by
  intro s
  unfold parse_plan_value parse_plan_valueE
  split_ifs with h
  · exact ⟨none, rfl, rfl⟩
  · cases hb : parsePlanBody s with
    | ok r => exact ⟨r, rfl, rfl⟩
    | error e =>
      cases e with
      | valueError => exact ⟨none, rfl, rfl⟩
      | indexError => exact ⟨none, rfl, rfl⟩
      | other => exact absurd hb (parsePlanBody_no_other s)

end HGSmart
